import Mathlib

/-!
Shallow embedding of the match score model of the SUPER-APP repository
(React front end for a fictional tennis tour).  The definitions below are
translated from the JavaScript sources:

* `MatchManager` (src/unnamed/part_002): set editing (`initializeSets`,
  `addSet`, `removeSet`), `isDecisiveSet`, `validateMatch`,
  `calculateWinner`, `handleSubmit`, `formatMatchScore`.
* `SurfaceDetail` (src/unnamed/part_000): `getSurfaceColor`,
  `getSurfaceIcon`, `formatMatchScore`.
* `MatchDetail` (src/frontend/src/components/MatchDetail.js):
  `calculateMatchStats`.
* `TournamentManager` (src/frontend/src/components/TournamentManager.js):
  `TOURNAMENT_CATEGORIES`, `SURFACES`, `getCategoryInfo`, `getSurfaceInfo`.

Modelling conventions: JavaScript numbers that hold game / tiebreak counts
are modelled as `Int` (the validator explicitly checks for negative
values); nullable fields are `Option Int`; identifier strings are `String`
with the empty string playing the role of a falsy / unset id, matching the
truthiness tests in the source.
-/

/-- One set of a match, as stored in the form state / match records. -/
structure SetScore where
  player1_games : Int
  player2_games : Int
  tiebreak_p1 : Option Int
  tiebreak_p2 : Option Int
  supertiebreak_p1 : Option Int
  supertiebreak_p2 : Option Int
deriving Repr, DecidableEq

/-- A tournament record; only the fields the embedded functions read. -/
structure Tournament where
  id : String
  surface : String
  is_best_of_five : Bool
deriving Repr, DecidableEq

/-- The `formData` state of the match form in `MatchManager`. -/
structure MatchForm where
  tournament_id : String
  player1_id : String
  player2_id : String
  winner_id : String
  sets : List SetScore
deriving Repr, DecidableEq

/-- JavaScript `x || 0` applied to an integer-valued expression. -/
def jsOr0 (x : Int) : Int := if x = 0 then 0 else x

theorem jsOr0_eq (x : Int) : jsOr0 x = x := by
  unfold jsOr0; split <;> simp_all

/-- The blank set pushed by `initializeSets` and `addSet`. -/
def emptySetScore : SetScore :=
  { player1_games := 0, player2_games := 0,
    tiebreak_p1 := none, tiebreak_p2 := none,
    supertiebreak_p1 := none, supertiebreak_p2 := none }

/-- `tournaments.find(t => t.id === tournamentId)`. -/
def findTournament (tournaments : List Tournament) (tournamentId : String) :
    Option Tournament :=
  tournaments.find? (fun t => t.id == tournamentId)

/-- `initializeSets` (part_002 lines 39-55): with the tournament found,
creates `ceil(maxSets / 2)` blank sets; otherwise the empty list. -/
def initializeSets (tournaments : List Tournament) (tournamentId : String) :
    List SetScore :=
  match findTournament tournaments tournamentId with
  | none => []
  | some t =>
      let maxSets : Nat := if t.is_best_of_five then 5 else 3
      let minSetsToWin : Nat := (maxSets + 1) / 2
      List.replicate minSetsToWin emptySetScore

/-- `handleTournamentChange` (part_002 lines 57-64): stores the selected
tournament id and re-initialises the set list. -/
def handleTournamentChange (tournaments : List Tournament)
    (form : MatchForm) (tournamentId : String) : MatchForm :=
  { form with tournament_id := tournamentId,
              sets := initializeSets tournaments tournamentId }

/-- `addSet` (part_002 lines 66-84): appends a blank set unless the
tournament is not found or the format's maximum is reached. -/
def addSet (tournaments : List Tournament) (form : MatchForm) : MatchForm :=
  match findTournament tournaments form.tournament_id with
  | none => form
  | some t =>
      let maxSets : Nat := if t.is_best_of_five then 5 else 3
      if form.sets.length ≥ maxSets then form
      else { form with sets := form.sets ++ [emptySetScore] }

/-- `removeSet` (part_002 lines 86-94): removes the set at `index`
(`filter((_, i) => i !== index)`) unless only one set is left. -/
def removeSet (form : MatchForm) (index : Nat) : MatchForm :=
  if form.sets.length ≤ 1 then form
  else { form with sets := form.sets.eraseIdx index }

/-- `isDecisiveSet` (part_002 lines 108-119). -/
def isDecisiveSet (tournaments : List Tournament) (form : MatchForm)
    (setIndex : Nat) : Bool :=
  match findTournament tournaments form.tournament_id with
  | none => false
  | some t => if t.is_best_of_five then setIndex == 4 else setIndex == 2

/-- Per-set validity check, the loop body of `validateMatch`
(part_002 lines 144-164). -/
def validSet (s : SetScore) : Bool :=
  if s.player1_games < 0 ∨ s.player2_games < 0 then false
  else if s.player1_games = s.player2_games then false
  else if ((s.player1_games = 7 ∧ s.player2_games = 6) ∨
           (s.player1_games = 6 ∧ s.player2_games = 7)) ∧
          (s.tiebreak_p1.isNone ∨ s.tiebreak_p2.isNone) then false
  else true

/-- `validateMatch` (part_002 lines 121-167), with `true` for "no toast
error raised".  Unset ids are the empty (falsy) string. -/
def validateMatch (form : MatchForm) : Bool :=
  if form.tournament_id = "" ∨ form.player1_id = "" ∨
     form.player2_id = "" ∨ form.winner_id = "" then false
  else if form.player1_id = form.player2_id then false
  else if form.winner_id ≠ form.player1_id ∧
          form.winner_id ≠ form.player2_id then false
  else if form.sets.length = 0 then false
  else form.sets.all validSet

/-- The `forEach` tally loop of `calculateWinner` (part_002 lines 172-181):
two counters, the `if` branch incrementing player1's tally on a strictly
higher game count and the `else` branch incrementing player2's. -/
def setTallies (sets : List SetScore) : Nat × Nat :=
  sets.foldl
    (fun acc s =>
      if s.player1_games > s.player2_games then (acc.1 + 1, acc.2)
      else (acc.1, acc.2 + 1))
    (0, 0)

/-- `tournament?.is_best_of_five ? 3 : 2` (part_002 lines 183-184); the
optional chain on a missing tournament is `undefined`, hence falsy. -/
def setsToWinFor (tournaments : List Tournament) (tournamentId : String) :
    Nat :=
  match findTournament tournaments tournamentId with
  | some t => if t.is_best_of_five then 3 else 2
  | none => 2

/-- `calculateWinner` (part_002 lines 169-193): `none` models the `null`
return. -/
def calculateWinner (tournaments : List Tournament) (form : MatchForm) :
    Option String :=
  if form.sets.length = 0 then none
  else
    let tallies := setTallies form.sets
    let setsToWin := setsToWinFor tournaments form.tournament_id
    if tallies.1 ≥ setsToWin then some form.player1_id
    else if tallies.2 ≥ setsToWin then some form.player2_id
    else none

/-- The data flow of `handleSubmit` (part_002 lines 195-230): no request is
sent when validation fails (`none`); otherwise the submitted payload is the
form with `winner_id` overwritten by the calculated winner when that value
is truthy (non-null and non-empty). -/
def handleSubmit (tournaments : List Tournament) (form : MatchForm) :
    Option MatchForm :=
  if validateMatch form then
    some { form with winner_id :=
      match calculateWinner tournaments form with
      | some w => if w = "" then form.winner_id else w
      | none => form.winner_id }
  else none

/-- The per-set fragment built by `formatMatchScore` (identical in
part_000 lines 83-99 and part_002 lines 262-278): games joined by a
hyphen, then `(...)` when both tiebreak fields are non-null, then `[...]`
when both supertiebreak fields are non-null, each showing
`a > b ? a : b`. -/
def formatSetFragment (s : SetScore) : String :=
  let p1Games := jsOr0 s.player1_games
  let p2Games := jsOr0 s.player2_games
  let scoreStr := toString p1Games ++ "-" ++ toString p2Games
  let scoreStr :=
    match s.tiebreak_p1, s.tiebreak_p2 with
    | some a, some b =>
        scoreStr ++ "(" ++ toString (if a > b then a else b) ++ ")"
    | _, _ => scoreStr
  match s.supertiebreak_p1, s.supertiebreak_p2 with
  | some a, some b =>
      scoreStr ++ "[" ++ toString (if a > b then a else b) ++ "]"
  | _, _ => scoreStr

/-- `formatMatchScore` (part_000 lines 80-100, part_002 lines 259-279);
a missing (`null`) set list arrives here as the empty list. -/
def formatMatchScore (sets : List SetScore) : String :=
  if sets.length = 0 then "Sin sets"
  else String.intercalate ", " (sets.map formatSetFragment)

/-- The record returned by `calculateMatchStats`. -/
structure MatchStats where
  p1Games : Int
  p2Games : Int
  p1Sets : Nat
  p2Sets : Nat
  totalTiebreaks : Nat
  p1Tiebreaks : Nat
  totalSupertiebreaks : Nat
  p1Supertiebreaks : Nat
  gamesDifferential : Int
deriving Repr, DecidableEq

/-- Loop body of `calculateMatchStats` (MatchDetail.js lines 115-141). -/
def matchStatsStep (acc : MatchStats) (s : SetScore) : MatchStats :=
  let acc := { acc with
    p1Games := acc.p1Games + jsOr0 s.player1_games,
    p2Games := acc.p2Games + jsOr0 s.player2_games }
  let acc :=
    if jsOr0 s.player1_games > jsOr0 s.player2_games then
      { acc with p1Sets := acc.p1Sets + 1 }
    else
      { acc with p2Sets := acc.p2Sets + 1 }
  let acc :=
    match s.tiebreak_p1, s.tiebreak_p2 with
    | some a, some b =>
        let acc := { acc with totalTiebreaks := acc.totalTiebreaks + 1 }
        if jsOr0 a > jsOr0 b then
          { acc with p1Tiebreaks := acc.p1Tiebreaks + 1 }
        else acc
    | _, _ => acc
  match s.supertiebreak_p1, s.supertiebreak_p2 with
  | some a, some b =>
      let acc :=
        { acc with totalSupertiebreaks := acc.totalSupertiebreaks + 1 }
      if jsOr0 a > jsOr0 b then
        { acc with p1Supertiebreaks := acc.p1Supertiebreaks + 1 }
      else acc
  | _, _ => acc

/-- `calculateMatchStats` (MatchDetail.js lines 105-149), over the sets of
the displayed match. -/
def calculateMatchStats (sets : List SetScore) : MatchStats :=
  let acc := sets.foldl matchStatsStep
    { p1Games := 0, p2Games := 0, p1Sets := 0, p2Sets := 0,
      totalTiebreaks := 0, p1Tiebreaks := 0,
      totalSupertiebreaks := 0, p1Supertiebreaks := 0,
      gamesDifferential := 0 }
  { acc with gamesDifferential := |acc.p1Games - acc.p2Games| }

/-- Entry of `TOURNAMENT_CATEGORIES` / `SURFACES`
(TournamentManager.js lines 16-29). -/
structure CategoryInfo where
  value : String
  label : String
  points : Int
  color : String
deriving Repr, DecidableEq

structure SurfaceInfo where
  value : String
  label : String
  color : String
deriving Repr, DecidableEq

def TOURNAMENT_CATEGORIES : List CategoryInfo :=
  [ { value := "Grand Slam", label := "Grand Slam", points := 2000,
      color := "bg-red-500" },
    { value := "Masters 1000", label := "Masters 1000", points := 1000,
      color := "bg-purple-500" },
    { value := "Masters 500", label := "Masters 500", points := 500,
      color := "bg-cyan-500" },
    { value := "ATP Finals", label := "ATP Finals", points := 1500,
      color := "bg-yellow-500" },
    { value := "Copa Davis", label := "Copa Davis", points := 0,
      color := "bg-emerald-500" } ]

def SURFACES : List SurfaceInfo :=
  [ { value := "Hierba", label := "Hierba", color := "bg-green-500" },
    { value := "Dura", label := "Dura", color := "bg-blue-500" },
    { value := "Tierra", label := "Tierra", color := "bg-orange-500" },
    { value := "Dura Indoor", label := "Dura Indoor",
      color := "bg-purple-500" } ]

/-- The `colors` object literal of `getSurfaceColor`
(part_000 lines 51-56), as an association list of its own properties. -/
def surfaceGradients : List (String × String) :=
  [("Hierba", "from-green-500 to-green-600"),
   ("Dura", "from-blue-500 to-blue-600"),
   ("Tierra", "from-orange-500 to-orange-600"),
   ("Dura Indoor", "from-purple-500 to-purple-600")]

/-- The `icons` object literal of `getSurfaceIcon`
(part_000 lines 61-66). -/
def surfaceIcons : List (String × String) :=
  [("Hierba", "🌱"), ("Dura", "🏟️"), ("Tierra", "🟫"),
   ("Dura Indoor", "🏢")]

/-- The property names an object literal inherits from
`Object.prototype`; reading any of these on the literal yields a truthy
non-string value (a function, or the prototype object for `__proto__`)
rather than `undefined`. -/
def objectPrototypeKeys : List String :=
  ["constructor", "hasOwnProperty", "isPrototypeOf",
   "propertyIsEnumerable", "toLocaleString", "toString", "valueOf",
   "__proto__", "__defineGetter__", "__defineSetter__",
   "__lookupGetter__", "__lookupSetter__"]

/-- The value of a JavaScript property read on one of the string-valued
object literals: either one of the literal's own string values (or a
string supplied by a `||` fallback), or a truthy value inherited from
`Object.prototype` (identified by its property name). -/
inductive JsPropValue
  | str (s : String)
  | inherited (name : String)
deriving Repr, DecidableEq

/-- The JS property read `obj[key]` on a string-valued object literal:
an own property yields its string, a key of `Object.prototype` yields
the inherited truthy value, anything else yields `undefined` (`none`). -/
def jsObjectGet (table : List (String × String)) (key : String) :
    Option JsPropValue :=
  match table.find? (fun e => e.1 == key) with
  | some e => some (.str e.2)
  | none =>
      if key ∈ objectPrototypeKeys then some (.inherited key) else none

/-- `getSurfaceColor` (part_000 lines 50-58):
`colors[surfaceName] || default`.  Every own value of the literal and
every inherited prototype property is truthy, so the fallback fires
exactly on `undefined`. -/
def getSurfaceColor (surfaceName : String) : JsPropValue :=
  (jsObjectGet surfaceGradients surfaceName).getD
    (.str "from-gray-500 to-gray-600")

/-- `getSurfaceIcon` (part_000 lines 60-68):
`icons[surfaceName] || fallback icon`. -/
def getSurfaceIcon (surfaceName : String) : JsPropValue :=
  (jsObjectGet surfaceIcons surfaceName).getD (.str "🎾")

/-- `getCategoryInfo` (TournamentManager.js lines 115-117):
`find(...) || TOURNAMENT_CATEGORIES[0]`. -/
def getCategoryInfo (category : String) : CategoryInfo :=
  match TOURNAMENT_CATEGORIES.find? (fun cat => cat.value == category) with
  | some cat => cat
  | none => TOURNAMENT_CATEGORIES.getD 0
      { value := "", label := "", points := 0, color := "" }

/-- `getSurfaceInfo` (TournamentManager.js lines 119-121):
`find(...) || SURFACES[0]`. -/
def getSurfaceInfo (surface : String) : SurfaceInfo :=
  match SURFACES.find? (fun surf => surf.value == surface) with
  | some surf => surf
  | none => SURFACES.getD 0 { value := "", label := "", color := "" }

/-- Form states reachable through the set-editing operations of the match
form: a tournament selection (the `Select` offers only ids present in the
tournament list) followed by any sequence of `addSet` / `removeSet`. -/
inductive ReachableForm (tournaments : List Tournament) : MatchForm → Prop
  | select (form : MatchForm) (tournamentId : String)
      (h : (findTournament tournaments tournamentId).isSome) :
      ReachableForm tournaments
        (handleTournamentChange tournaments form tournamentId)
  | add (form : MatchForm) (h : ReachableForm tournaments form) :
      ReachableForm tournaments (addSet tournaments form)
  | remove (form : MatchForm) (index : Nat)
      (h : ReachableForm tournaments form) :
      ReachableForm tournaments (removeSet form index)

/-- Spec-modelled (§4.2 of the spec): the count of sets a side has won
under the spec's wording "strictly higher game count", for player1. -/
def specStrictSetsP1 (sets : List SetScore) : Nat :=
  sets.countP (fun s => s.player1_games > s.player2_games)

/-- Spec-modelled (§4.2 of the spec): the count of sets player2 has won
under the spec's wording "strictly higher game count". -/
def specStrictSetsP2 (sets : List SetScore) : Nat :=
  sets.countP (fun s => s.player2_games > s.player1_games)

/-- The tally the code actually keeps for player2: every set in which
player1's game count is not strictly higher (the `else` branch). -/
def codeSetsP2 (sets : List SetScore) : Nat :=
  sets.countP (fun s => ¬ s.player1_games > s.player2_games)

/-- Spec-modelled (§4.4 of the spec): the per-set score fragment as the
spec words it, `"{p1_games}-{p2_games}"` with `"({max(tb_p1, tb_p2)})"`
and `"[{max(stb_p1, stb_p2)}]"` appended when the respective field pairs
are populated. -/
def specSetFragment (s : SetScore) : String :=
  toString s.player1_games ++ "-" ++ toString s.player2_games ++
  (match s.tiebreak_p1, s.tiebreak_p2 with
   | some a, some b => "(" ++ toString (max a b) ++ ")"
   | _, _ => "") ++
  (match s.supertiebreak_p1, s.supertiebreak_p2 with
   | some a, some b => "[" ++ toString (max a b) ++ "]"
   | _, _ => "")

/-! ### Concrete fixtures -/

/-- A drawn set, 4-4: rejected by the validator but representable. -/
def tiedSet44 : SetScore :=
  { player1_games := 4, player2_games := 4,
    tiebreak_p1 := none, tiebreak_p2 := none,
    supertiebreak_p1 := none, supertiebreak_p2 := none }

/-- A 6-4 set won by player1. -/
def wonSet64 : SetScore :=
  { player1_games := 6, player2_games := 4,
    tiebreak_p1 := none, tiebreak_p2 := none,
    supertiebreak_p1 := none, supertiebreak_p2 := none }

/-- A 4-6 set won by player2. -/
def lostSet46 : SetScore :=
  { player1_games := 4, player2_games := 6,
    tiebreak_p1 := none, tiebreak_p2 := none,
    supertiebreak_p1 := none, supertiebreak_p2 := none }

/-- A best-of-three tournament. -/
def exT1 : Tournament :=
  { id := "t1", surface := "Dura", is_best_of_five := false }

def exTournaments : List Tournament := [exT1]

/-- A form whose sets are all drawn. -/
def exTiedForm : MatchForm :=
  { tournament_id := "t1", player1_id := "p1", player2_id := "p2",
    winner_id := "p1", sets := [tiedSet44, tiedSet44] }

/-- A valid form: player1 wins 2-0 in sets while the user entered player2
as the winner. -/
def exWonForm : MatchForm :=
  { tournament_id := "t1", player1_id := "p1", player2_id := "p2",
    winner_id := "p2", sets := [wonSet64, wonSet64] }

/-- The payload `handleSubmit` sends for `exWonForm`. -/
def exSubmitted : MatchForm := { exWonForm with winner_id := "p1" }

/-- Four sets in a best-of-three: both tallies reach the threshold. -/
def exBothForm : MatchForm :=
  { tournament_id := "t1", player1_id := "p1", player2_id := "p2",
    winner_id := "p1", sets := [wonSet64, wonSet64, lostSet46, lostSet46] }

/-- The pristine form produced by `resetForm`. -/
def blankForm : MatchForm :=
  { tournament_id := "", player1_id := "", player2_id := "",
    winner_id := "", sets := [] }

/-! ### Shared lemmas -/

theorem setTallies_go (sets : List SetScore) (a b : Nat) :
    sets.foldl
      (fun acc s =>
        if s.player1_games > s.player2_games then (acc.1 + 1, acc.2)
        else (acc.1, acc.2 + 1)) (a, b)
      = (a + specStrictSetsP1 sets, b + codeSetsP2 sets) := by
  induction sets generalizing a b with
  | nil => simp [specStrictSetsP1, codeSetsP2]
  | cons s rest ih =>
    simp only [List.foldl_cons, specStrictSetsP1, codeSetsP2,
      List.countP_cons] at *
    by_cases h : s.player1_games > s.player2_games
    · simp only [if_pos h, ih]
      simp [h]
      omega
    · simp only [if_neg h, ih]
      simp [h]
      omega

theorem setTallies_eq (sets : List SetScore) :
    setTallies sets = (specStrictSetsP1 sets, codeSetsP2 sets) := by
  simpa [setTallies] using setTallies_go sets 0 0

theorem specStrictSetsP1_le_length (sets : List SetScore) :
    specStrictSetsP1 sets ≤ sets.length :=
  List.countP_le_length _

theorem setsToWinFor_ge_two (ts : List Tournament) (tid : String) :
    2 ≤ setsToWinFor ts tid := by
  unfold setsToWinFor
  cases h : findTournament ts tid with
  | none => simp [h]
  | some t => simp only [h]; split <;> omega

/-- `calculateWinner` with its local `let` bindings flattened. -/
theorem calculateWinner_def (ts : List Tournament) (form : MatchForm) :
    calculateWinner ts form =
      if form.sets.length = 0 then none
      else if setsToWinFor ts form.tournament_id ≤ (setTallies form.sets).1
        then some form.player1_id
      else if setsToWinFor ts form.tournament_id ≤ (setTallies form.sets).2
        then some form.player2_id
      else none := rfl

/-- Characterisation of the per-set validity check. -/
theorem validSet_char (s : SetScore) :
    validSet s = true ↔
      (0 ≤ s.player1_games ∧ 0 ≤ s.player2_games ∧
       s.player1_games ≠ s.player2_games ∧
       (((s.player1_games = 7 ∧ s.player2_games = 6) ∨
         (s.player1_games = 6 ∧ s.player2_games = 7)) →
         s.tiebreak_p1 ≠ none ∧ s.tiebreak_p2 ≠ none)) := by
  unfold validSet
  split_ifs with h1 h2 h3
  · constructor
    · intro h; cases h
    · rintro ⟨hp1, hp2, -, -⟩; rcases h1 with h | h <;> omega
  · constructor
    · intro h; cases h
    · rintro ⟨-, -, hne, -⟩; exact absurd h2 hne
  · constructor
    · intro h; cases h
    · rintro ⟨-, -, -, htb⟩
      obtain ⟨hscore, hmiss⟩ := h3
      obtain ⟨ht1, ht2⟩ := htb hscore
      rcases hmiss with h | h <;>
        simp_all [Option.isNone_iff_eq_none]
  · push_neg at h1 h3
    constructor
    · intro _
      refine ⟨h1.1, h1.2, h2, ?_⟩
      intro hscore
      have := h3 hscore
      constructor <;>
        simp_all [Option.isNone_iff_eq_none, Option.ne_none_iff_isSome]
    · intro _; rfl

/-- Characterisation of `validateMatch`, shared by several claims. -/
theorem validateMatch_char (form : MatchForm) :
    validateMatch form = true ↔
      (form.tournament_id ≠ "" ∧ form.player1_id ≠ "" ∧
       form.player2_id ≠ "" ∧ form.winner_id ≠ "" ∧
       form.player1_id ≠ form.player2_id ∧
       (form.winner_id = form.player1_id ∨
        form.winner_id = form.player2_id) ∧
       form.sets ≠ [] ∧
       ∀ s ∈ form.sets,
         0 ≤ s.player1_games ∧ 0 ≤ s.player2_games ∧
         s.player1_games ≠ s.player2_games ∧
         (((s.player1_games = 7 ∧ s.player2_games = 6) ∨
           (s.player1_games = 6 ∧ s.player2_games = 7)) →
           s.tiebreak_p1 ≠ none ∧ s.tiebreak_p2 ≠ none)) := by
  unfold validateMatch
  split_ifs with h1 h2 h3 h4
  · simp only [false_iff]; tauto
  · simp only [false_iff]; tauto
  · simp only [false_iff]; tauto
  · have : form.sets = [] := List.length_eq_zero.mp h4
    simp only [false_iff, this]; tauto
  · push_neg at h1 h3
    rw [List.all_eq_true]
    have hne : form.sets ≠ [] := by
      intro h; exact h4 (by simp [h])
    constructor
    · intro hall
      refine ⟨h1.1, h1.2.1, h1.2.2.1, h1.2.2.2, h2, ?_, hne, ?_⟩
      · by_cases hw : form.winner_id = form.player1_id
        · exact Or.inl hw
        · exact Or.inr (h3 hw)
      · intro s hs
        exact (validSet_char s).mp (hall s hs)
    · rintro ⟨-, -, -, -, -, -, -, hall⟩
      intro s hs
      exact (validSet_char s).mpr (hall s hs)

theorem calculateWinner_eq_p1_or_p2 (ts : List Tournament)
    (form : MatchForm) (w : String)
    (h : calculateWinner ts form = some w) :
    w = form.player1_id ∨ w = form.player2_id := by
  rw [calculateWinner_def] at h
  split_ifs at h <;> simp_all

theorem ite_gt_eq_max (a b : Int) : (if a > b then a else b) = max a b := by
  rcases le_or_lt a b with h | h
  · rw [if_neg (not_lt.mpr h), max_eq_right h]
  · rw [if_pos h, max_eq_left h.le]

theorem formatSetFragment_eq_spec (s : SetScore) :
    formatSetFragment s = specSetFragment s := by
  obtain ⟨g1, g2, t1, t2, u1, u2⟩ := s
  unfold formatSetFragment specSetFragment
  simp only [jsOr0_eq, ite_gt_eq_max]
  rcases t1 with _ | a <;> rcases t2 with _ | b <;>
    rcases u1 with _ | c <;> rcases u2 with _ | d <;>
    simp only [String.append_assoc, String.append_empty]

theorem matchStatsStep_p1Sets (acc : MatchStats) (s : SetScore) :
    (matchStatsStep acc s).p1Sets =
      if s.player1_games > s.player2_games then acc.p1Sets + 1
      else acc.p1Sets := by
  obtain ⟨g1, g2, t1, t2, u1, u2⟩ := s
  rcases t1 with _ | a <;> rcases t2 with _ | b <;>
    rcases u1 with _ | c <;> rcases u2 with _ | d <;>
    simp only [matchStatsStep, jsOr0_eq] <;> split_ifs <;> rfl

theorem matchStatsStep_p2Sets (acc : MatchStats) (s : SetScore) :
    (matchStatsStep acc s).p2Sets =
      if s.player1_games > s.player2_games then acc.p2Sets
      else acc.p2Sets + 1 := by
  obtain ⟨g1, g2, t1, t2, u1, u2⟩ := s
  rcases t1 with _ | a <;> rcases t2 with _ | b <;>
    rcases u1 with _ | c <;> rcases u2 with _ | d <;>
    simp only [matchStatsStep, jsOr0_eq] <;> split_ifs <;> rfl

theorem matchStats_fold_sets (sets : List SetScore) (acc : MatchStats) :
    (sets.foldl matchStatsStep acc).p1Sets
        = acc.p1Sets + specStrictSetsP1 sets ∧
    (sets.foldl matchStatsStep acc).p2Sets
        = acc.p2Sets + codeSetsP2 sets := by
  induction sets generalizing acc with
  | nil => simp [specStrictSetsP1, codeSetsP2]
  | cons s rest ih =>
    obtain ⟨ih1, ih2⟩ := ih (matchStatsStep acc s)
    simp only [List.foldl_cons, specStrictSetsP1, codeSetsP2,
      List.countP_cons] at *
    rw [ih1, ih2, matchStatsStep_p1Sets, matchStatsStep_p2Sets]
    by_cases h : s.player1_games > s.player2_games <;> simp [h] <;> omega

theorem strict_add_code_eq_length (sets : List SetScore) :
    specStrictSetsP1 sets + codeSetsP2 sets = sets.length := by
  induction sets with
  | nil => rfl
  | cons s rest ih =>
    simp only [specStrictSetsP1, codeSetsP2, List.countP_cons,
      List.length_cons, decide_eq_true_eq] at *
    by_cases h : s.player1_games > s.player2_games
    · rw [if_pos h, if_neg (not_not_intro h)]; omega
    · rw [if_neg h, if_pos h]; omega

theorem addSet_tournament_id (ts : List Tournament) (form : MatchForm) :
    (addSet ts form).tournament_id = form.tournament_id := by
  unfold addSet
  split
  · rfl
  · dsimp only
    split_ifs <;> rfl

theorem removeSet_tournament_id (form : MatchForm) (index : Nat) :
    (removeSet form index).tournament_id = form.tournament_id := by
  unfold removeSet
  split_ifs <;> rfl

/-! ### Claims -/

/-- Claim C1, counterexample: a 4-4 set is a concrete set whose game
counts are equal, yet `calculateWinner`'s tally records it as a set-point
for player2 (`setTallies [tiedSet44] = (0, 1)`), and two such sets make
`calculateWinner` return player2 instead of leaving both counts at 0. -/
theorem C1_counterexample :
    tiedSet44.player1_games = tiedSet44.player2_games ∧
    setTallies [tiedSet44] = (0, 1) ∧
    calculateWinner exTournaments exTiedForm = some "p2" :=
  ⟨rfl, rfl, rfl⟩

/-- Claim C1 (amended): in `calculateWinner`'s tally a set whose two game
counts are equal awards the set-point to player2 — appending a tied set
leaves player1's cumulative count unchanged and increments player2's. -/
theorem C1_tied_set_awards_player2 (sets : List SetScore) (s : SetScore)
    (h : s.player1_games = s.player2_games) :
    setTallies (sets ++ [s]) =
      ((setTallies sets).1, (setTallies sets).2 + 1) := by
  unfold setTallies
  rw [List.foldl_append]
  simp [h]

/-- Claim C1, witness for the amended theorem at a concrete tied set. -/
theorem C1_witness :
    tiedSet44.player1_games = tiedSet44.player2_games ∧
    setTallies ([wonSet64] ++ [tiedSet44]) =
      ((setTallies [wonSet64]).1, (setTallies [wonSet64]).2 + 1) :=
  ⟨rfl, C1_tied_set_awards_player2 [wonSet64] tiedSet44 rfl⟩

/-- Claim C2, counterexample: with two 4-4 sets neither side has any set
with a strictly higher game count, so under the claim `calculateWinner`
would return `none`; the code returns player2. -/
theorem C2_counterexample :
    specStrictSetsP1 exTiedForm.sets = 0 ∧
    specStrictSetsP2 exTiedForm.sets = 0 ∧
    setsToWinFor exTournaments exTiedForm.tournament_id = 2 ∧
    calculateWinner exTournaments exTiedForm = some "p2" ∧
    calculateWinner exTournaments exTiedForm ≠ none :=
  ⟨rfl, rfl, rfl, rfl, by decide⟩

/-- Claim C2 (amended): `calculateWinner`, with setsToWin = 3 for
best-of-five and 2 otherwise, returns `none` exactly when neither tally
reaches setsToWin — where player1's tally counts the sets with a strictly
higher player1 game count and player2's tally counts every remaining set,
ties included; if player1's tally reaches setsToWin the result is
player1, and otherwise if player2's tally reaches it the result is
player2, evaluated over the full set list. -/
theorem C2_calculateWinner_cases (ts : List Tournament) (form : MatchForm) :
    (calculateWinner ts form = none ↔
      ((setTallies form.sets).1 < setsToWinFor ts form.tournament_id ∧
       (setTallies form.sets).2 < setsToWinFor ts form.tournament_id)) ∧
    (setsToWinFor ts form.tournament_id ≤ (setTallies form.sets).1 →
      calculateWinner ts form = some form.player1_id) ∧
    ((setTallies form.sets).1 < setsToWinFor ts form.tournament_id →
      setsToWinFor ts form.tournament_id ≤ (setTallies form.sets).2 →
      calculateWinner ts form = some form.player2_id) := by
  have hw := setsToWinFor_ge_two ts form.tournament_id
  rw [calculateWinner_def]
  by_cases h0 : form.sets.length = 0
  · have he : form.sets = [] := List.length_eq_zero.mp h0
    rw [if_pos h0, he]
    refine ⟨by simp [setTallies]; omega, ?_, ?_⟩
    · intro h; simp [setTallies] at h; omega
    · intro h1 h2; simp [setTallies] at h2; omega
  · rw [if_neg h0]
    split_ifs with h1 h2
    · exact ⟨by simp; omega, fun _ => rfl, fun hlt _ => absurd h1 (by omega)⟩
    · exact ⟨by simp; omega, fun hge => absurd hge h1, fun _ _ => rfl⟩
    · exact ⟨by simp; omega, fun hge => absurd hge h1,
        fun _ hge => absurd hge h2⟩

/-- Claim C2, witness: a 2-0 best-of-three form where player1's tally
reaches the threshold and `calculateWinner` returns player1. -/
theorem C2_witness :
    setsToWinFor exTournaments exWonForm.tournament_id ≤
      (setTallies exWonForm.sets).1 ∧
    calculateWinner exTournaments exWonForm = some exWonForm.player1_id :=
  ⟨by decide,
    (C2_calculateWinner_cases exTournaments exWonForm).2.1 (by decide)⟩

/-- Claim C3: `validateMatch` succeeds exactly when all ids are set, the
players differ, the winner is one of the two players, the set list is
non-empty, and every set has non-negative, unequal game counts with both
tiebreak fields present on a 7-6 or 6-7 score; in particular agreement of
the stored winner with the set tally is not required and no other
condition causes failure. -/
theorem C3_validateMatch_iff (form : MatchForm) :
    validateMatch form = true ↔
      (form.tournament_id ≠ "" ∧ form.player1_id ≠ "" ∧
       form.player2_id ≠ "" ∧ form.winner_id ≠ "" ∧
       form.player1_id ≠ form.player2_id ∧
       (form.winner_id = form.player1_id ∨
        form.winner_id = form.player2_id) ∧
       form.sets ≠ [] ∧
       ∀ s ∈ form.sets,
         0 ≤ s.player1_games ∧ 0 ≤ s.player2_games ∧
         s.player1_games ≠ s.player2_games ∧
         (((s.player1_games = 7 ∧ s.player2_games = 6) ∨
           (s.player1_games = 6 ∧ s.player2_games = 7)) →
           s.tiebreak_p1 ≠ none ∧ s.tiebreak_p2 ≠ none)) :=
  validateMatch_char form

/-- Claim C3, witness: a concrete valid form whose stored winner
(player2) disagrees with the set tally, accepted by `validateMatch`. -/
theorem C3_witness : validateMatch exWonForm = true :=
  (C3_validateMatch_iff exWonForm).mpr (by decide)

/-- Claim C4: with the selected tournament found, the decisive-set
classification `isDecisiveSet` holds exactly at position 4 for
best-of-five and position 2 for best-of-three, for every zero-based set
position and independently of the form's set list. -/
theorem C4_isDecisiveSet_iff (ts : List Tournament) (form : MatchForm)
    (t : Tournament) (h : findTournament ts form.tournament_id = some t)
    (setIndex : Nat) :
    isDecisiveSet ts form setIndex = true ↔
      setIndex = (if t.is_best_of_five then 4 else 2) := by
  unfold isDecisiveSet
  rw [h]
  by_cases hb : t.is_best_of_five <;> simp [hb]

/-- Claim C4, witness: position 2 is decisive for the best-of-three
fixture tournament. -/
theorem C4_witness :
    findTournament exTournaments exTiedForm.tournament_id = some exT1 ∧
    isDecisiveSet exTournaments exTiedForm 2 = true :=
  ⟨rfl,
    (C4_isDecisiveSet_iff exTournaments exTiedForm exT1 rfl 2).mpr
      (by decide)⟩

/-- Claim C5: when `handleSubmit` submits a payload, the submitted
winner_id equals the derived winner whenever `calculateWinner` is
decisive (non-null), and equals the user-entered winner_id unchanged
whenever the derivation returns `null`. -/
theorem C5_handleSubmit_override (ts : List Tournament)
    (form submitted : MatchForm)
    (h : handleSubmit ts form = some submitted) :
    (∀ w, calculateWinner ts form = some w → submitted.winner_id = w) ∧
    (calculateWinner ts form = none →
      submitted.winner_id = form.winner_id) := by
  unfold handleSubmit at h
  split_ifs at h with hv
  · have hids := (validateMatch_char form).mp hv
    have h1 : form.player1_id ≠ "" := hids.2.1
    have h2 : form.player2_id ≠ "" := hids.2.2.1
    have hsub := Option.some.inj h
    constructor
    · intro w hw
      have hw12 := calculateWinner_eq_p1_or_p2 ts form w hw
      have hwne : w ≠ "" := by rcases hw12 with h | h <;> simp [h, h1, h2]
      rw [← hsub]
      simp only [hw]
      rw [if_neg hwne]
    · intro hnone
      rw [← hsub]
      simp only [hnone]

/-- Claim C5, witness: the derived winner player1 overwrites the
user-entered winner player2 in the submitted payload. -/
theorem C5_witness :
    handleSubmit exTournaments exWonForm = some exSubmitted ∧
    calculateWinner exTournaments exWonForm = some "p1" ∧
    exSubmitted.winner_id = "p1" :=
  ⟨rfl, rfl,
    (C5_handleSubmit_override exTournaments exWonForm exSubmitted
      rfl).1 "p1" rfl⟩

/-- Claim C6: on a non-empty set list `formatMatchScore` emits one
fragment per set in playing order joined by ", ", each fragment being the
game score with "(max of the tiebreak pair)" appended when both tiebreak
fields are non-null and "[max of the supertiebreak pair]" appended when
both supertiebreak fields are non-null; the empty set list formats as the
fixed placeholder. -/
theorem C6_formatMatchScore_spec (sets : List SetScore) :
    (sets ≠ [] →
      formatMatchScore sets =
        String.intercalate ", " (sets.map specSetFragment)) ∧
    formatMatchScore [] = "Sin sets" := by
  constructor
  · intro h
    unfold formatMatchScore
    rw [if_neg (by simpa using h)]
    rw [funext formatSetFragment_eq_spec]
  · rfl

/-- Claim C6, witness: a one-set list formatted through the theorem. -/
theorem C6_witness :
    ([wonSet64] : List SetScore) ≠ [] ∧
    formatMatchScore [wonSet64] =
      String.intercalate ", " ([wonSet64].map specSetFragment) :=
  ⟨by decide, (C6_formatMatchScore_spec [wonSet64]).1 (by decide)⟩

/-- Claim C7, counterexample: a 4-4 set has no side with strictly more
games, yet `calculateMatchStats` counts it as a set won by player2. -/
theorem C7_counterexample :
    tiedSet44.player1_games = tiedSet44.player2_games ∧
    specStrictSetsP2 [tiedSet44] = 0 ∧
    (calculateMatchStats [tiedSet44]).p2Sets = 1 :=
  ⟨rfl, rfl, rfl⟩

/-- Claim C7 (amended): in `calculateMatchStats` a set is counted for
player1 exactly when player1's game count strictly exceeds player2's,
and every other set — tied sets included — is counted for player2; the
two tallies partition the set list. -/
theorem C7_matchStats_tallies (sets : List SetScore) :
    (calculateMatchStats sets).p1Sets = specStrictSetsP1 sets ∧
    (calculateMatchStats sets).p2Sets = codeSetsP2 sets ∧
    (calculateMatchStats sets).p1Sets + (calculateMatchStats sets).p2Sets
      = sets.length := by
  obtain ⟨ha, hb⟩ := matchStats_fold_sets sets
    { p1Games := 0, p2Games := 0, p1Sets := 0, p2Sets := 0,
      totalTiebreaks := 0, p1Tiebreaks := 0,
      totalSupertiebreaks := 0, p1Supertiebreaks := 0,
      gamesDifferential := 0 }
  simp only [Nat.zero_add] at ha hb
  have hsum := strict_add_code_eq_length sets
  unfold calculateMatchStats
  dsimp only
  rw [ha, hb]
  refine ⟨rfl, rfl, hsum⟩

/-- Claim C8: every form reachable through tournament selection followed
by `addSet` / `removeSet` operations keeps between 1 and the format's
maximum number of sets (5 for best-of-five, 3 otherwise). -/
theorem C8_reachable_set_bounds (ts : List Tournament) (form : MatchForm)
    (hr : ReachableForm ts form) (t : Tournament)
    (ht : findTournament ts form.tournament_id = some t) :
    1 ≤ form.sets.length ∧
      form.sets.length ≤ (if t.is_best_of_five then 5 else 3) := by
  revert t
  induction hr with
  | select form0 tid h =>
    intro t ht
    simp only [handleTournamentChange] at ht ⊢
    unfold initializeSets
    rw [ht]
    dsimp only
    by_cases hb : t.is_best_of_five <;> simp [hb]
  | add form0 hr0 ih =>
    intro t ht
    rw [addSet_tournament_id] at ht
    have IH := ih t ht
    unfold addSet
    rw [ht]
    dsimp only
    by_cases hb : t.is_best_of_five
    · simp [hb] at IH ⊢
      split_ifs with hmax
      · exact IH
      · simp only [List.length_append, List.length_cons, List.length_nil]
        omega
    · simp [hb] at IH ⊢
      split_ifs with hmax
      · exact IH
      · simp only [List.length_append, List.length_cons, List.length_nil]
        omega
  | remove form0 index hr0 ih =>
    intro t ht
    rw [removeSet_tournament_id] at ht
    have IH := ih t ht
    obtain ⟨IH1, IH2⟩ := IH
    unfold removeSet
    by_cases hle : form0.sets.length ≤ 1
    · rw [if_pos hle]
      exact ⟨IH1, IH2⟩
    · rw [if_neg hle]
      dsimp only
      by_cases hidx : index < form0.sets.length
      · rw [List.length_eraseIdx_of_lt hidx]
        exact ⟨by omega, by omega⟩
      · rw [List.eraseIdx_of_length_le (le_of_not_lt hidx)]
        exact ⟨IH1, IH2⟩

/-- Claim C8, witness: selecting the best-of-three fixture tournament
yields a reachable form with 2 sets, within the bounds. -/
theorem C8_witness :
    1 ≤ (handleTournamentChange exTournaments blankForm "t1").sets.length ∧
    (handleTournamentChange exTournaments blankForm "t1").sets.length ≤
      (if exT1.is_best_of_five then 5 else 3) :=
  C8_reachable_set_bounds exTournaments _
    (ReachableForm.select blankForm "t1" rfl) exT1 rfl

/-- Claim C9, counterexample: "toString" is outside the surface
enumeration, yet the object-literal lookups of `getSurfaceColor` and
`getSurfaceIcon` hit the truthy `Object.prototype.toString` inherited
property, so the `||` fallback never fires and the helpers return the
inherited value instead of the generic default. -/
theorem C9_counterexample :
    ("toString" : String) ∉
      (["Hierba", "Dura", "Tierra", "Dura Indoor"] : List String) ∧
    getSurfaceColor "toString" = JsPropValue.inherited "toString" ∧
    getSurfaceColor "toString" ≠
      JsPropValue.str "from-gray-500 to-gray-600" ∧
    getSurfaceIcon "toString" = JsPropValue.inherited "toString" ∧
    getSurfaceIcon "toString" ≠ JsPropValue.str "🎾" := by
  refine ⟨by decide, rfl, by decide, rfl, by decide⟩

/-- Claim C9 (amended): for every surface string outside the fixed
surface enumeration that is not a property name inherited from
`Object.prototype`, and every category string outside the fixed category
enumeration, the lookup helpers return their generic defaults (the gray
gradient, the generic tennis-ball icon, and the first entry of the
respective info table) instead of failing; for inherited prototype-key
strings the two object-literal helpers instead return the truthy
inherited property, while the array-based `getCategoryInfo` and
`getSurfaceInfo` default on every unknown string. -/
theorem C9_unknown_lookup_defaults (s c : String)
    (hs : s ∉ (["Hierba", "Dura", "Tierra", "Dura Indoor"] : List String))
    (hp : s ∉ objectPrototypeKeys)
    (hc : c ∉ (["Grand Slam", "Masters 1000", "Masters 500", "ATP Finals",
      "Copa Davis"] : List String)) :
    getSurfaceColor s = JsPropValue.str "from-gray-500 to-gray-600" ∧
    getSurfaceIcon s = JsPropValue.str "🎾" ∧
    getSurfaceInfo s =
      { value := "Hierba", label := "Hierba", color := "bg-green-500" } ∧
    getCategoryInfo c =
      { value := "Grand Slam", label := "Grand Slam", points := 2000,
        color := "bg-red-500" } := by
  simp only [List.mem_cons, List.not_mem_nil, or_false, not_or] at hs hc
  obtain ⟨hs1, hs2, hs3, hs4⟩ := hs
  obtain ⟨hc1, hc2, hc3, hc4, hc5⟩ := hc
  have hs1s : "Hierba" ≠ s := Ne.symm hs1
  have hs2s : "Dura" ≠ s := Ne.symm hs2
  have hs3s : "Tierra" ≠ s := Ne.symm hs3
  have hs4s : "Dura Indoor" ≠ s := Ne.symm hs4
  have hc1s : "Grand Slam" ≠ c := Ne.symm hc1
  have hc2s : "Masters 1000" ≠ c := Ne.symm hc2
  have hc3s : "Masters 500" ≠ c := Ne.symm hc3
  have hc4s : "ATP Finals" ≠ c := Ne.symm hc4
  have hc5s : "Copa Davis" ≠ c := Ne.symm hc5
  have hgrad : surfaceGradients.find? (fun e => e.1 == s) = none := by
    rw [List.find?_eq_none]
    intro x hx
    simp only [surfaceGradients, List.mem_cons, List.not_mem_nil,
      or_false] at hx
    rcases hx with rfl | rfl | rfl | rfl <;>
      simp [hs1s, hs2s, hs3s, hs4s]
  have hicon : surfaceIcons.find? (fun e => e.1 == s) = none := by
    rw [List.find?_eq_none]
    intro x hx
    simp only [surfaceIcons, List.mem_cons, List.not_mem_nil,
      or_false] at hx
    rcases hx with rfl | rfl | rfl | rfl <;>
      simp [hs1s, hs2s, hs3s, hs4s]
  have hsurf : SURFACES.find? (fun surf => surf.value == s) = none := by
    rw [List.find?_eq_none]
    intro x hx
    simp only [SURFACES, List.mem_cons, List.not_mem_nil, or_false] at hx
    rcases hx with rfl | rfl | rfl | rfl <;>
      simp [hs1s, hs2s, hs3s, hs4s]
  have hcat :
      TOURNAMENT_CATEGORIES.find? (fun cat => cat.value == c) = none := by
    rw [List.find?_eq_none]
    intro x hx
    simp only [TOURNAMENT_CATEGORIES, List.mem_cons, List.not_mem_nil,
      or_false] at hx
    rcases hx with rfl | rfl | rfl | rfl | rfl <;>
      simp [hc1s, hc2s, hc3s, hc4s, hc5s]
  refine ⟨?_, ?_, ?_, ?_⟩
  · unfold getSurfaceColor jsObjectGet
    simp only [hgrad]
    rw [if_neg hp]
    rfl
  · unfold getSurfaceIcon jsObjectGet
    simp only [hicon]
    rw [if_neg hp]
    rfl
  · unfold getSurfaceInfo; rw [hsurf]; rfl
  · unfold getCategoryInfo; rw [hcat]; rfl

/-- Claim C9, witness: two strings outside the enumerations (and outside
the inherited prototype keys) map to the generic defaults. -/
theorem C9_witness :
    getSurfaceColor "Moqueta" = JsPropValue.str "from-gray-500 to-gray-600" ∧
    getSurfaceIcon "Moqueta" = JsPropValue.str "🎾" ∧
    getSurfaceInfo "Moqueta" =
      { value := "Hierba", label := "Hierba", color := "bg-green-500" } ∧
    getCategoryInfo "Challenger" =
      { value := "Grand Slam", label := "Grand Slam", points := 2000,
        color := "bg-red-500" } :=
  C9_unknown_lookup_defaults "Moqueta" "Challenger" (by decide) (by decide)
    (by decide)

/-- Claim C10: when both tallies reach the threshold (reachable since
validation does not bound the list length), `calculateWinner` answers
player1: its player1 check precedes the player2 check. -/
theorem C10_double_threshold_player1 (ts : List Tournament)
    (form : MatchForm)
    (h1 : setsToWinFor ts form.tournament_id ≤ (setTallies form.sets).1)
    (h2 : setsToWinFor ts form.tournament_id ≤ (setTallies form.sets).2) :
    calculateWinner ts form = some form.player1_id := by
  have hw := setsToWinFor_ge_two ts form.tournament_id
  have hlen : ¬ form.sets.length = 0 := by
    intro h0
    rw [List.length_eq_zero.mp h0] at h1
    simp [setTallies] at h1
    omega
  rw [calculateWinner_def, if_neg hlen, if_pos h1]

/-- Claim C10, witness: a best-of-three form with four sets split 2-2
where `calculateWinner` returns player1. -/
theorem C10_witness :
    setsToWinFor exTournaments exBothForm.tournament_id ≤
      (setTallies exBothForm.sets).1 ∧
    setsToWinFor exTournaments exBothForm.tournament_id ≤
      (setTallies exBothForm.sets).2 ∧
    calculateWinner exTournaments exBothForm = some exBothForm.player1_id :=
  ⟨by decide, by decide,
    C10_double_threshold_player1 exTournaments exBothForm
      (by decide) (by decide)⟩
